import Mathlib

/-!
Shallow embedding of `src/importarPropriedades.js` (HubSpot property bulk
importer).  The script reads CSV rows, validates each row's `objectType`
against a fixed endpoint table, builds a property definition (with special
handling for enumeration options and numeric display hints), POSTs it, pushes
one result record per row into a global accumulator and finally renders a PDF
report from the accumulator on the stream's `end` (or `error`) event.

Modelling conventions:
* CSV fields are `String`s; an absent field is modelled as `""` (both are
  JS-falsy, and `undefined?.trim()` and `"".trim()` behave identically in
  every guard of the script).
* The HTTP call performed by `axios.post` is modelled by an `HttpOutcome`
  oracle supplied by the environment: `success` for a 2xx resolution and
  `failure body msg` otherwise, where `body` is
  `JSON.stringify(error.response.data, null, 2)` when `error.response?.data`
  is truthy (serialization is done by the JSON collaborator, so the model
  carries the already-serialized string) and `none` when there is no response
  or its body is falsy, and `msg` is `error.message`.
* Timestamps (`new Date().toLocaleString('pt-BR')`) are environment inputs,
  passed in as strings.
* The PDF document is modelled as the list of text pieces written to it,
  each with the fill color active when it is written.
-/

/-- A raw CSV record with the eight header columns of the input file. -/
structure InputRow where
  objectType : String
  name : String
  label : String
  description : String
  groupName : String
  type : String
  fieldType : String
  options : String
deriving Repr, DecidableEq

/-- One `{label, value}` entry of an enumeration property's `options` array. -/
structure OptionPair where
  label : String
  value : String
deriving Repr, DecidableEq

/-- JS whitespace for the purposes of `String.prototype.trim` (the characters
that can actually occur in a CSV text field). -/
def jsIsSpace (c : Char) : Bool :=
  c = ' ' || c = '\t' || c = '\n' || c = '\r'

/-- JS `s.trim()`: drop leading and trailing whitespace.  (Defined over the
character list so that proofs can evaluate it.) -/
def jsTrim (s : String) : String :=
  String.mk (((s.data.dropWhile jsIsSpace).reverse.dropWhile jsIsSpace).reverse)

/-- JS `s.toLowerCase()` on the ASCII range used by the script's keys. -/
def jsToLower (s : String) : String :=
  String.mk (s.data.map Char.toLower)

/-- Helper for [[jsSplit]]: accumulate the current piece (reversed) while
scanning the character list. -/
def jsSplitAux (sep : Char) : List Char → List Char → List (List Char)
  | [], cur => [cur.reverse]
  | c :: rest, cur =>
    if c = sep then cur.reverse :: jsSplitAux sep rest []
    else jsSplitAux sep rest (c :: cur)

/-- JS `s.split(sep)` for a single-character separator: `"" ↦ [""]`,
`"a|b" ↦ ["a","b"]`, `"|" ↦ ["",""]` — no escaping of the separator. -/
def jsSplit (sep : Char) (s : String) : List String :=
  (jsSplitAux sep s.data []).map String.mk

/-- JS `s.charAt(0).toUpperCase() + s.slice(1)` (on an already-trimmed `s`):
uppercase the first character, keep the rest unchanged; `""` stays `""`. -/
def jsCapitalizeFirst (s : String) : String :=
  match s.data with
  | [] => ""
  | c :: cs => String.mk (c.toUpper :: cs)

/-- Embeds `buildOptions` (src/importarPropriedades.js:36-41): split the raw option
string on `|` and map every piece to a `{label, value}` pair. -/
def buildOptions (optionString : String) : List OptionPair :=
  (jsSplit '|' optionString).map fun opt =>
    { label := jsCapitalizeFirst (jsTrim opt), value := jsToLower (jsTrim opt) }

/-- Embeds `BASE_URLS` (src/importarPropriedades.js:18-26): the string-keyed
object-kind → endpoint table; `none` models an `undefined` lookup. -/
def BASE_URLS (objectType : String) : Option String :=
  if objectType = "contact" then
    some "https://api.hubapi.com/properties/v1/contacts/properties"
  else if objectType = "deal" then
    some "https://api.hubspot.com/properties/v1/deals/properties"
  else if objectType = "ticket" then
    some "https://api.hubspot.com/crm/v3/properties/tickets"
  else
    none

/-- The `propriedade` payload built per row (src/importarPropriedades.js:140-157).
`none` in an optional field models the key being absent from the JS object. -/
structure PropertyDefinition where
  name : String
  label : String
  description : String
  groupName : String
  type : String
  fieldType : String
  formField : Bool
  options : Option (List OptionPair)
  numberDisplayHint : Option String
deriving Repr, DecidableEq

/-- One entry of the `creationResults` accumulator
(src/importarPropriedades.js:63-70, 128-135, 167-174). -/
structure ResultRecord where
  objectType : String
  name : String
  label : String
  status : String
  errorMessage : String
  timestamp : String
deriving Repr, DecidableEq

/-- Outcome of `axios.post` as observed by `createProperty`'s try/catch:
`success` = the promise resolved (2xx); `failure responseBodyJson message` =
it rejected, with `responseBodyJson = some b` iff `error.response?.data` was
truthy (`b` being its JSON serialization) and `message = error.message`. -/
inductive HttpOutcome where
  | success
  | failure (responseBodyJson : Option String) (message : String)
deriving Repr, DecidableEq

/-- JS single-quote character, used inside generated messages. -/
def singleQuote : String := String.mk [Char.ofNat 39]

/-- Embeds `row.objectType?.trim()?.toLowerCase()`
(src/importarPropriedades.js:122). -/
def normalizeObjectType (raw : String) : String :=
  jsToLower (jsTrim raw)

/-- The guard of src/importarPropriedades.js:126:
`!objectType || !BASE_URLS[objectType]` — the row is rejected when the
normalized object type is falsy or has no endpoint. -/
def rowIsInvalid (objectType : String) : Bool :=
  objectType == "" || (BASE_URLS objectType).isNone

/-- The record `createProperty` pushes in its `finally` block
(src/importarPropriedades.js:63-70): status starts as `❌ Falha`, becomes
`✅ Sucesso` only when the POST resolves; on rejection `errorMessage` is the
serialized response body if present, else the exception's message. -/
def createPropertyRecord (objectType : String) (data : PropertyDefinition)
    (outcome : HttpOutcome) (timestamp : String) : ResultRecord :=
  let status :=
    match outcome with
    | .success => "✅ Sucesso"
    | .failure _ _ => "❌ Falha"
  let errorMessage :=
    match outcome with
    | .success => ""
    | .failure (some body) _ => body
    | .failure none message => message
  { objectType := objectType
    name := data.name
    label := data.label
    status := status
    errorMessage := errorMessage
    timestamp := timestamp }

/-- A POST issued by `createProperty` (src/importarPropriedades.js:54):
`axios.post(BASE_URLS[objectType], data, { headers: HEADERS })`. -/
structure NetworkCall where
  url : Option String
  body : PropertyDefinition
deriving Repr, DecidableEq

/-- Embeds `createProperty` (src/importarPropriedades.js:48-72): issues exactly one
POST and appends exactly one record to the accumulator, whatever the
outcome — the try/catch/finally never rethrows. -/
def createProperty (objectType : String) (data : PropertyDefinition)
    (outcome : HttpOutcome) (timestamp : String)
    (creationResults : List ResultRecord) :
    List ResultRecord × List NetworkCall :=
  (creationResults ++ [createPropertyRecord objectType data outcome timestamp],
   [{ url := BASE_URLS objectType, body := data }])

/-- The record pushed for an invalid/malformed row
(src/importarPropriedades.js:128-135); `objectType` is the already-normalized
value and JS-falsy fields are replaced by `N/A`. -/
def invalidRecord (objectType : String) (row : InputRow) (timestamp : String) :
    ResultRecord :=
  let propertyName := jsTrim row.name
  { objectType := if objectType = "" then "N/A" else objectType
    name := if propertyName = "" then "N/A" else propertyName
    label := if jsTrim row.label = "" then "N/A" else jsTrim row.label
    status := "⚠️ Objeto Inválido / Linha Ignorada"
    errorMessage :=
      "Objeto " ++ singleQuote ++ objectType ++ singleQuote ++
        " não reconhecido ou linha CSV incompleta."
    timestamp := timestamp }

/-- The record pushed by the stream's `error` handler
(src/importarPropriedades.js:167-174). -/
def criticalRecord (message : String) (timestamp : String) : ResultRecord :=
  { objectType := "N/A"
    name := "Erro de Leitura CSV"
    label := "N/A"
    status := "❌ Erro Crítico"
    errorMessage := "Erro ao ler o arquivo CSV: " ++ message
    timestamp := timestamp }

/-- The `propriedade` object built for a valid row
(src/importarPropriedades.js:140-157): every field trimmed, `formField:
true`; `options` added only when the trimmed type is `enumeration` AND the
raw `options` field is truthy; the display hint only when trimmed `type` and
`fieldType` are both `number`. -/
def buildPropriedade (row : InputRow) : PropertyDefinition :=
  let base : PropertyDefinition :=
    { name := jsTrim row.name
      label := jsTrim row.label
      description := jsTrim row.description
      groupName := jsTrim row.groupName
      type := jsTrim row.type
      fieldType := jsTrim row.fieldType
      formField := true
      options := none
      numberDisplayHint := none }
  let withOpts :=
    if base.type = "enumeration" ∧ row.options ≠ "" then
      { base with options := some (buildOptions row.options) }
    else base
  if withOpts.type = "number" ∧ withOpts.fieldType = "number" then
    { withOpts with numberDisplayHint := some "number" }
  else withOpts

/-- Environment data for one fired `data` event: the parsed row, the HTTP
outcome its submission would get, and the wall-clock string at record time. -/
structure RowStep where
  row : InputRow
  outcome : HttpOutcome
  timestamp : String
deriving Repr, DecidableEq

/-- The `data` handler (src/importarPropriedades.js:121-160), with the
submission awaited inline (synchronous semantics): returns the new
accumulator and the POSTs issued while handling this row. -/
def processRow (step : RowStep) (acc : List ResultRecord) :
    List ResultRecord × List NetworkCall :=
  let objectType := normalizeObjectType step.row.objectType
  if rowIsInvalid objectType then
    (acc ++ [invalidRecord objectType step.row step.timestamp], [])
  else
    createProperty objectType (buildPropriedade step.row) step.outcome
      step.timestamp acc

/-- All `data` events of a run, in stream order, threading the accumulator. -/
def processRows (steps : List RowStep) (acc : List ResultRecord) :
    List ResultRecord × List NetworkCall :=
  match steps with
  | [] => (acc, [])
  | step :: rest =>
    let r1 := processRow step acc
    let r2 := processRows rest r1.1
    (r2.1, r1.2 ++ r2.2)

/-- Fill colors used by `generatePdfReport`. -/
inductive PdfColor where
  | green
  | orange
  | red
  | black
deriving Repr, DecidableEq

/-- The status-color ternary (src/importarPropriedades.js:93). -/
def statusColor (status : String) : PdfColor :=
  if status = "✅ Sucesso" then .green
  else if status = "⚠️ Objeto Inválido" then .orange
  else .red

/-- One piece of text written to the PDF, with the fill color active when it
is written. -/
structure PdfText where
  text : String
  color : PdfColor
deriving Repr, DecidableEq

/-- The lines `generatePdfReport` writes for one result record
(src/importarPropriedades.js:91-107); the error-message line appears only
when `result.errorMessage` is truthy. -/
def renderResult (result : ResultRecord) : List PdfText :=
  [{ text := "Objeto: " ++ result.objectType, color := .black },
   { text := "Nome Interno: " ++ result.name, color := .black },
   { text := "Label: " ++ result.label, color := .black },
   { text := "Status: ", color := .black },
   { text := result.status, color := statusColor result.status }] ++
  (if result.errorMessage ≠ "" then
    [{ text := "Mensagem de Erro: " ++ result.errorMessage, color := .black }]
  else []) ++
  [{ text := "Hora: " ++ result.timestamp, color := .black }]

/-- Embeds `generatePdfReport` (src/importarPropriedades.js:78-112): header, run
timestamp, then one block per record — or the placeholder when the result
list is empty. -/
def generatePdfReport (results : List ResultRecord) (execTimestamp : String) :
    List PdfText :=
  [{ text := "Relatório de Importação de Propriedades HubSpot", color := .black },
   { text := "Data da Execução: " ++ execTimestamp, color := .black }] ++
  (if results.length = 0 then
    [{ text := "Nenhuma propriedade foi processada a partir do CSV.",
       color := .black }]
  else
    (results.map renderResult).flatten)

/-- How the CSV stream terminates: a clean `end` event, or an `error` event
carrying the exception's message and the wall-clock at that moment. -/
inductive StreamTerminal where
  | ended
  | errored (message : String) (timestamp : String)
deriving Repr, DecidableEq

/-- Observable outcome of one whole run: the final accumulator, every POST
issued, and every report document generated. -/
structure RunResult where
  results : List ResultRecord
  networkCalls : List NetworkCall
  reports : List (List PdfText)
deriving Repr, DecidableEq

/-- Embeds `importarCSV` (src/importarPropriedades.js:118-177) under synchronous
semantics (each row's submission completes before the terminal event):
process all fired rows, then the `end` handler generates one report — or the
`error` handler pushes one critical record and generates one report over the
partial results. -/
def importarCSV (steps : List RowStep) (terminal : StreamTerminal)
    (execTimestamp : String) : RunResult :=
  let processed := processRows steps []
  match terminal with
  | .ended =>
    { results := processed.1
      networkCalls := processed.2
      reports := [generatePdfReport processed.1 execTimestamp] }
  | .errored message timestamp =>
    let withCritical := processed.1 ++ [criticalRecord message timestamp]
    { results := withCritical
      networkCalls := processed.2
      reports := [generatePdfReport withCritical execTimestamp] }

/-- A `data` event together with the scheduling fact the event loop decides:
whether this row's submission promise settled before the stream's `end`
event fired.  The `data` handler is `async` and the reader does not await it
(src/importarPropriedades.js:121), so for a valid row the record is pushed
only when its `axios.post` settles — possibly after `end`.  Invalid rows
push synchronously inside the handler, so the flag is irrelevant for them. -/
structure ScheduledRow where
  row : InputRow
  outcome : HttpOutcome
  timestamp : String
  completedBeforeEnd : Bool
deriving Repr, DecidableEq

/-- Whether a row passes the object-type guard (so its submission is
spawned). -/
def rowIsValid (row : InputRow) : Bool :=
  !(rowIsInvalid (normalizeObjectType row.objectType))

/-- The single record a row eventually contributes to the accumulator
(invalid record for rejected rows, submission record otherwise). -/
def scheduledRowRecord (s : ScheduledRow) : ResultRecord :=
  let objectType := normalizeObjectType s.row.objectType
  if rowIsInvalid objectType then
    invalidRecord objectType s.row s.timestamp
  else
    createPropertyRecord objectType (buildPropriedade s.row) s.outcome
      s.timestamp

/-- The accumulator contents at the moment the `end` event fires: invalid
rows' records (pushed synchronously) and the records of submissions that
settled before `end`, in row order (one representative interleaving). -/
def recordsAtStreamEnd (rows : List ScheduledRow) : List ResultRecord :=
  (rows.filter fun s => !(rowIsValid s.row) || s.completedBeforeEnd).map
    scheduledRowRecord

/-- Records of submissions still in flight when `end` fired; they are pushed
after the report is rendered. -/
def lateRecords (rows : List ScheduledRow) : List ResultRecord :=
  (rows.filter fun s => rowIsValid s.row && !s.completedBeforeEnd).map
    scheduledRowRecord

/-- Embeds `importarCSV` under the script's real fire-and-forget semantics for a
run whose stream ends cleanly: the `end` handler renders the report from
whatever the accumulator holds at that moment; in-flight submissions append
their records afterwards and appear in no report. -/
def importarCSVAsync (rows : List ScheduledRow) (execTimestamp : String) :
    RunResult :=
  { results := recordsAtStreamEnd rows ++ lateRecords rows
    networkCalls := (rows.filter fun s => rowIsValid s.row).map fun s =>
      { url := BASE_URLS (normalizeObjectType s.row.objectType)
        body := buildPropriedade s.row }
    reports := [generatePdfReport (recordsAtStreamEnd rows) execTimestamp] }

/-- The single record a `data` event contributes to the accumulator under
synchronous semantics (same dichotomy as [[scheduledRowRecord]]). -/
def rowStepRecord (step : RowStep) : ResultRecord :=
  let objectType := normalizeObjectType step.row.objectType
  if rowIsInvalid objectType then
    invalidRecord objectType step.row step.timestamp
  else
    createPropertyRecord objectType (buildPropriedade step.row) step.outcome
      step.timestamp

/-- Every status string the script ever pushes into `creationResults`. -/
def pushedStatuses : List String :=
  ["✅ Sucesso", "❌ Falha", "⚠️ Objeto Inválido / Linha Ignorada",
   "❌ Erro Crítico"]

/-- Sample valid contact row (plain string property). -/
def rowC : InputRow :=
  { objectType := "contact", name := "prop_contact", label := "Prop Contact",
    description := "desc", groupName := "ginfo", type := "string",
    fieldType := "text", options := "" }

/-- Sample row with an unsupported object type (`company`). -/
def rowX : InputRow :=
  { objectType := "company", name := "prop_bad", label := "Prop Bad",
    description := "", groupName := "", type := "string",
    fieldType := "text", options := "" }

/-- Sample valid deal row with an enumeration property. -/
def rowD : InputRow :=
  { objectType := "deal", name := "prop_deal", label := "Prop Deal",
    description := "", groupName := "ginfo", type := "enumeration",
    fieldType := "select", options := "Yes|No" }

/-- Sample `data` event for the invalid row [[rowX]]. -/
def stepX : RowStep :=
  { row := rowX, outcome := .success, timestamp := "t2" }

/-- Sample row whose type is `enumeration` but whose `options` field is the
empty string (JS-falsy). -/
def rowEnumNoOptions : InputRow :=
  { objectType := "contact", name := "prop_enum", label := "Prop Enum",
    description := "", groupName := "ginfo", type := "enumeration",
    fieldType := "select", options := "" }

/-- The 3-row file of the end-to-end property — one valid contact property,
one invalid object type, one enumeration deal property — with the event
loop's scheduling choice for each valid row's submission (`c1`, `c3`).  The
invalid row never spawns a submission, so its flag is immaterial; it is set
to `false` to document that its record is in the report regardless. -/
def threeRowSchedule (c1 c3 : Bool) : List ScheduledRow :=
  [{ row := rowC, outcome := .success, timestamp := "t1",
     completedBeforeEnd := c1 },
   { row := rowX, outcome := .success, timestamp := "t2",
     completedBeforeEnd := false },
   { row := rowD, outcome := .success, timestamp := "t3",
     completedBeforeEnd := c3 }]

/-- Sample `data` event whose raw object type needs trimming and lowercasing
before it matches a supported kind. -/
def stepContactWs : RowStep :=
  { row := { objectType := " Contact ", name := "prop_ws", label := "Prop Ws",
             description := "", groupName := "ginfo", type := "string",
             fieldType := "text", options := "" },
    outcome := .success, timestamp := "t9" }

/-!
Helper lemmas about the embedding.
-/

theorem BASE_URLS_eq_none (s : String)
    (h : s ∉ (["contact", "deal", "ticket"] : List String)) :
    BASE_URLS s = none := by
  simp only [List.mem_cons, List.not_mem_nil, or_false, not_or] at h
  obtain ⟨h1, h2, h3⟩ := h
  simp [BASE_URLS, h1, h2, h3]

theorem rowIsInvalid_of_not_supported (s : String)
    (h : s ∉ (["contact", "deal", "ticket"] : List String)) :
    rowIsInvalid s = true := by
  simp [rowIsInvalid, BASE_URLS_eq_none s h]

theorem rowIsInvalid_false_of_isSome (s : String)
    (h : (BASE_URLS s).isSome = true) : rowIsInvalid s = false := by
  have hs : (s == "") = false := by
    rcases eq_or_ne s "" with he | he
    · subst he
      exact absurd h (by decide)
    · simp [he]
  simp only [rowIsInvalid, hs, Bool.false_or, Option.isNone_eq_false_iff]
  exact h

theorem processRow_results (step : RowStep) (acc : List ResultRecord) :
    (processRow step acc).1 = acc ++ [rowStepRecord step] := by
  unfold processRow rowStepRecord createProperty
  dsimp only
  split <;> rfl

theorem processRows_results (steps : List RowStep) (acc : List ResultRecord) :
    (processRows steps acc).1 = acc ++ steps.map rowStepRecord := by
  induction steps generalizing acc with
  | nil => simp [processRows]
  | cons step rest ih =>
    simp [processRows, ih, processRow_results, List.append_assoc]

theorem rowStepRecord_status (step : RowStep) :
    (rowStepRecord step).status = "⚠️ Objeto Inválido / Linha Ignorada" ∨
    (rowStepRecord step).status = "✅ Sucesso" ∨
    (rowStepRecord step).status = "❌ Falha" := by
  unfold rowStepRecord
  dsimp only
  split
  · left
    rfl
  · cases step.outcome <;> simp [createPropertyRecord, invalidRecord]

theorem mem_importarCSV_status (steps : List RowStep)
    (terminal : StreamTerminal) (ts : String) (r : ResultRecord)
    (h : r ∈ (importarCSV steps terminal ts).results) :
    r.status ∈ pushedStatuses := by
  have hstep : ∀ s : RowStep, (rowStepRecord s).status ∈ pushedStatuses := by
    intro s
    rcases rowStepRecord_status s with hs | hs | hs <;> rw [hs] <;> decide
  cases terminal with
  | ended =>
    simp only [importarCSV, processRows_results, List.nil_append,
      List.mem_map] at h
    obtain ⟨s, _, rfl⟩ := h
    exact hstep s
  | errored m t =>
    simp only [importarCSV, processRows_results, List.nil_append,
      List.mem_append, List.mem_map, List.mem_singleton] at h
    rcases h with ⟨s, _, rfl⟩ | rfl
    · exact hstep s
    · simp [criticalRecord, pushedStatuses]

theorem mem_generatePdfReport_of_mem_flatten (p : PdfText)
    (results : List ResultRecord) (ts : String)
    (h : p ∈ (results.map renderResult).flatten) :
    p ∈ generatePdfReport results ts := by
  have hne : ¬results.length = 0 := by
    intro h0
    rw [List.length_eq_zero] at h0
    subst h0
    simp at h
  unfold generatePdfReport
  rw [if_neg hne]
  exact List.mem_append_right _ h

/-!
Claim theorems.
-/

/-- C1: for every submitted row (object kind plus property definition) the
submitter appends exactly one `ResultRecord` to the accumulator and never
throws past its boundary: on a resolved POST the record's status is
`✅ Sucesso`, and on any failure the status is `❌ Falha` with `errorMessage`
equal to the serialized response body when one is present, else the
exception's message text. -/
theorem claim1_submitter_boundary (objectType : String)
    (data : PropertyDefinition) (outcome : HttpOutcome) (ts : String)
    (acc : List ResultRecord) :
    (createProperty objectType data outcome ts acc).1 =
      acc ++ [createPropertyRecord objectType data outcome ts] ∧
    (createPropertyRecord objectType data outcome ts).status =
      (match outcome with
       | .success => "✅ Sucesso"
       | .failure _ _ => "❌ Falha") ∧
    (createPropertyRecord objectType data outcome ts).errorMessage =
      (match outcome with
       | .success => ""
       | .failure (some body) _ => body
       | .failure none message => message) := by
  refine ⟨rfl, ?_, ?_⟩ <;>
    cases outcome with
    | success => rfl
    | failure body message => cases body <;> rfl

/-- C2: a row whose normalized object type is not one of the three supported
kinds (in particular a blank one) short-circuits — one record with the
invalid-object status is appended, and the handler issues no network call. -/
theorem claim2_invalid_object_short_circuit (step : RowStep)
    (acc : List ResultRecord)
    (h : normalizeObjectType step.row.objectType ∉
      (["contact", "deal", "ticket"] : List String)) :
    processRow step acc =
      (acc ++ [invalidRecord (normalizeObjectType step.row.objectType)
        step.row step.timestamp], []) ∧
    (invalidRecord (normalizeObjectType step.row.objectType) step.row
      step.timestamp).status = "⚠️ Objeto Inválido / Linha Ignorada" := by
  constructor
  · unfold processRow
    dsimp only
    rw [rowIsInvalid_of_not_supported _ h]
    simp
  · rfl

/-- Witness for C2 at the concrete row [[rowX]] (`objectType = "company"`). -/
theorem claim2_witness :
    normalizeObjectType stepX.row.objectType ∉
      (["contact", "deal", "ticket"] : List String) ∧
    (processRow stepX [] =
      ([] ++ [invalidRecord (normalizeObjectType stepX.row.objectType)
        stepX.row stepX.timestamp], []) ∧
    (invalidRecord (normalizeObjectType stepX.row.objectType) stepX.row
      stepX.timestamp).status = "⚠️ Objeto Inválido / Linha Ignorada") :=
  ⟨by decide, claim2_invalid_object_short_circuit stepX [] (by decide)⟩

/-- C7: the report generated over an empty result list is exactly the header,
the run-timestamp line and the placeholder line — it contains the placeholder
message and no record block, and the generator is total (never errors). -/
theorem claim7_empty_report_placeholder (ts : String) :
    generatePdfReport [] ts =
      [{ text := "Relatório de Importação de Propriedades HubSpot",
         color := PdfColor.black },
       { text := "Data da Execução: " ++ ts, color := PdfColor.black },
       { text := "Nenhuma propriedade foi processada a partir do CSV.",
         color := PdfColor.black }] ∧
    ({ text := "Nenhuma propriedade foi processada a partir do CSV.",
       color := PdfColor.black } : PdfText) ∈ generatePdfReport [] ts := by
  constructor
  · rfl
  · simp [generatePdfReport]

/-- C8: the built property definition carries `numberDisplayHint = "number"`
exactly when the row's trimmed `type` and trimmed `fieldType` both equal
`number`; otherwise the field is absent (`none`). -/
theorem claim8_number_display_hint (row : InputRow) :
    (buildPropriedade row).numberDisplayHint =
      (if jsTrim row.type = "number" ∧ jsTrim row.fieldType = "number" then
        some "number"
      else none) ∧
    ((buildPropriedade row).numberDisplayHint = some "number" ↔
      jsTrim row.type = "number" ∧ jsTrim row.fieldType = "number") := by
  have hmain : (buildPropriedade row).numberDisplayHint =
      (if jsTrim row.type = "number" ∧ jsTrim row.fieldType = "number" then
        some "number"
      else none) := by
    unfold buildPropriedade
    dsimp only
    split <;> dsimp only <;> split <;> simp_all
  refine ⟨hmain, ?_⟩
  rw [hmain]
  by_cases h : jsTrim row.type = "number" ∧ jsTrim row.fieldType = "number"
  · simp [h]
  · simp [h]

/-- C3 counterexample: the claim quantifies over every row whose type is
`enumeration`, but the code guards the parse with the JS-truthiness of the
raw `options` field (`propriedade.type === 'enumeration' && row.options`),
so a row with an empty `options` string gets no `options` array at all
instead of the parse of `""` (which would be `[{label: "", value: ""}]`). -/
theorem claim3_counterexample :
    jsTrim rowEnumNoOptions.type = "enumeration" ∧
    rowEnumNoOptions.options = "" ∧
    buildOptions rowEnumNoOptions.options = [{ label := "", value := "" }] ∧
    (buildPropriedade rowEnumNoOptions).options ≠
      some (buildOptions rowEnumNoOptions.options) ∧
    (buildPropriedade rowEnumNoOptions).options = none := by
  decide

/-- C3 (amended): for every row whose trimmed type is `enumeration` and whose
`options` field is nonempty (JS-truthy), the definition's options are the
`|`-split of the raw field, each entry trimmed with the first character
uppercased as label and trimmed-lowercased as value; in particular `Yes|No`
maps to `[{label Yes, value yes}, {label No, value no}]`. -/
theorem claim3_enumeration_options (row : InputRow)
    (h1 : jsTrim row.type = "enumeration") (h2 : row.options ≠ "") :
    (buildPropriedade row).options = some (buildOptions row.options) ∧
    buildOptions row.options = (jsSplit '|' row.options).map
      (fun opt => { label := jsCapitalizeFirst (jsTrim opt),
                    value := jsToLower (jsTrim opt) }) ∧
    buildOptions "Yes|No" =
      [{ label := "Yes", value := "yes" }, { label := "No", value := "no" }] := by
  refine ⟨?_, rfl, by decide⟩
  unfold buildPropriedade
  dsimp only
  split
  next =>
    split <;> rfl
  next hnum =>
    exact absurd ⟨h1, h2⟩ hnum

/-- Witness for C3 (amended) at the concrete deal row [[rowD]]
(`options = "Yes|No"`). -/
theorem claim3_witness :
    jsTrim rowD.type = "enumeration" ∧ rowD.options ≠ "" ∧
    ((buildPropriedade rowD).options = some (buildOptions rowD.options) ∧
    buildOptions rowD.options = (jsSplit '|' rowD.options).map
      (fun opt => { label := jsCapitalizeFirst (jsTrim opt),
                    value := jsToLower (jsTrim opt) }) ∧
    buildOptions "Yes|No" =
      [{ label := "Yes", value := "yes" }, { label := "No", value := "no" }]) :=
  ⟨by decide, by decide,
    claim3_enumeration_options rowD (by decide) (by decide)⟩

/-- C4: no error kind is fatal — for any sequence of rows (valid or invalid,
each submission succeeding or failing) and either stream terminal, the run is
a total function that appends exactly one record per row, appends one
critical record on a stream error (keeping the partial per-row results), and
generates exactly one report over the full accumulator. -/
theorem claim4_no_error_is_fatal (steps : List RowStep)
    (terminal : StreamTerminal) (ts : String) :
    (importarCSV steps terminal ts).reports =
      [generatePdfReport (importarCSV steps terminal ts).results ts] ∧
    (importarCSV steps terminal ts).results =
      (match terminal with
       | .ended => steps.map rowStepRecord
       | .errored m t => steps.map rowStepRecord ++ [criticalRecord m t]) := by
  cases terminal <;>
    simp [importarCSV, processRows_results]

/-- C5: the accumulator invariant — after any prefix of `k` processed rows
the accumulator holds exactly `k` records (one per processed row, valid or
not), and the final accumulator holds one record per row plus exactly one
critical-error entry when the stream errored and none otherwise. -/
theorem claim5_accumulator_invariant (steps : List RowStep)
    (terminal : StreamTerminal) (ts : String) (k : Nat) :
    (processRows (steps.take k) []).1.length = min k steps.length ∧
    (importarCSV steps terminal ts).results.length =
      steps.length +
        (match terminal with
         | .ended => 0
         | .errored _ _ => 1) ∧
    ((importarCSV steps terminal ts).results.filter
        (fun r => r.status == "❌ Erro Crítico")).length =
      (match terminal with
       | .ended => 0
       | .errored _ _ => 1) := by
  have hrow : ∀ s : RowStep,
      ((rowStepRecord s).status == "❌ Erro Crítico") = false := by
    intro s
    rcases rowStepRecord_status s with hs | hs | hs <;> rw [hs] <;> decide
  have hnil : ∀ steps' : List RowStep,
      (steps'.map rowStepRecord).filter
        (fun r => r.status == "❌ Erro Crítico") = [] := by
    intro steps'
    rw [List.filter_eq_nil_iff]
    intro r hr
    obtain ⟨s, _, rfl⟩ := List.mem_map.mp hr
    simp [hrow s]
  refine ⟨?_, ?_, ?_⟩
  · rw [processRows_results]
    simp
  · cases terminal <;> simp [importarCSV, processRows_results]
  · cases terminal <;>
      simp [importarCSV, processRows_results, criticalRecord,
        List.filter_append, hnil]

/-- C6 counterexample: under the script's real fire-and-forget semantics the
end-of-stream report is not guaranteed to list all three rows.  With the
concrete 3-row file and a schedule where neither valid row's submission
settles before the `end` event, the accumulator still ends with exactly 3
records (one of them named `prop_contact`) but the single generated report
does not list the `prop_contact` record. -/
theorem claim6_counterexample :
    (importarCSVAsync (threeRowSchedule false false) "T").results.length = 3 ∧
    (importarCSVAsync (threeRowSchedule false false) "T").results.any
      (fun r => r.name == "prop_contact") = true ∧
    (importarCSVAsync (threeRowSchedule false false) "T").reports =
      [generatePdfReport (recordsAtStreamEnd (threeRowSchedule false false))
        "T"] ∧
    ({ text := "Nome Interno: prop_contact", color := PdfColor.black } :
      PdfText) ∉
      generatePdfReport (recordsAtStreamEnd (threeRowSchedule false false))
        "T" := by
  refine ⟨by decide, by decide, rfl, by decide⟩

/-- C6 (amended): the 3-row file yields exactly 3 `ResultRecord`s in the
final accumulator and exactly one generated report; the report lists the
records present when the stream's `end` event fires — always the
invalid-object record, and each valid row's record only if its submission
settled before `end` (so when both settled in time, all three are listed;
submissions still in flight are missing from the report). -/
theorem claim6_three_row_run (c1 c3 : Bool) (ts : String) :
    (importarCSVAsync (threeRowSchedule c1 c3) ts).results.length = 3 ∧
    (importarCSVAsync (threeRowSchedule c1 c3) ts).reports =
      [generatePdfReport (recordsAtStreamEnd (threeRowSchedule c1 c3)) ts] ∧
    ({ text := "Nome Interno: prop_bad", color := PdfColor.black } : PdfText) ∈
      generatePdfReport (recordsAtStreamEnd (threeRowSchedule c1 c3)) ts ∧
    (c1 = true →
      ({ text := "Nome Interno: prop_contact", color := PdfColor.black } :
        PdfText) ∈
        generatePdfReport (recordsAtStreamEnd (threeRowSchedule c1 c3)) ts) ∧
    (c3 = true →
      ({ text := "Nome Interno: prop_deal", color := PdfColor.black } :
        PdfText) ∈
        generatePdfReport (recordsAtStreamEnd (threeRowSchedule c1 c3)) ts) := by
  refine ⟨?_, rfl, ?_, ?_, ?_⟩
  · cases c1 <;> cases c3 <;> rfl
  · apply mem_generatePdfReport_of_mem_flatten
    cases c1 <;> cases c3 <;> decide
  · intro hc1
    subst hc1
    apply mem_generatePdfReport_of_mem_flatten
    cases c3 <;> decide
  · intro hc3
    subst hc3
    apply mem_generatePdfReport_of_mem_flatten
    cases c1 <;> decide

/-- Witness for C6 (amended) at the schedule where both submissions settle
before `end`: all three rows are listed in the report. -/
theorem claim6_witness :
    (importarCSVAsync (threeRowSchedule true true) "T").results.length = 3 ∧
    (importarCSVAsync (threeRowSchedule true true) "T").reports =
      [generatePdfReport (recordsAtStreamEnd (threeRowSchedule true true))
        "T"] ∧
    ({ text := "Nome Interno: prop_bad", color := PdfColor.black } :
      PdfText) ∈
      generatePdfReport (recordsAtStreamEnd (threeRowSchedule true true))
        "T" ∧
    ({ text := "Nome Interno: prop_contact", color := PdfColor.black } :
      PdfText) ∈
      generatePdfReport (recordsAtStreamEnd (threeRowSchedule true true))
        "T" ∧
    ({ text := "Nome Interno: prop_deal", color := PdfColor.black } :
      PdfText) ∈
      generatePdfReport (recordsAtStreamEnd (threeRowSchedule true true))
        "T" :=
  ⟨(claim6_three_row_run true true "T").1,
   (claim6_three_row_run true true "T").2.1,
   (claim6_three_row_run true true "T").2.2.1,
   (claim6_three_row_run true true "T").2.2.2.1 rfl,
   (claim6_three_row_run true true "T").2.2.2.2 rfl⟩

/-- C9: for every record a run can put in the accumulator, the rendered
status text is green iff the status is `✅ Sucesso` and red otherwise — the
orange branch is unreachable because the invalid-row handler pushes
`⚠️ Objeto Inválido / Linha Ignorada`, which is not the string
`⚠️ Objeto Inválido` the report compares against. -/
theorem claim9_status_color_dichotomy (steps : List RowStep)
    (terminal : StreamTerminal) (ts : String) (r : ResultRecord)
    (h : r ∈ (importarCSV steps terminal ts).results) :
    ({ text := r.status, color := statusColor r.status } : PdfText) ∈
      renderResult r ∧
    (statusColor r.status = PdfColor.green ↔ r.status = "✅ Sucesso") ∧
    (r.status ≠ "✅ Sucesso" → statusColor r.status = PdfColor.red) ∧
    statusColor r.status ≠ PdfColor.orange ∧
    ("⚠️ Objeto Inválido / Linha Ignorada" : String) ≠ "⚠️ Objeto Inválido" := by
  have hs := mem_importarCSV_status steps terminal ts r h
  have hmem : ({ text := r.status, color := statusColor r.status } : PdfText) ∈
      renderResult r := by
    unfold renderResult
    simp
  simp only [pushedStatuses, List.mem_cons, List.not_mem_nil, or_false] at hs
  rcases hs with hs | hs | hs | hs <;> rw [hs] <;>
    exact ⟨by rw [hs] at hmem; exact hmem, by decide, by decide, by decide,
      by decide⟩

/-- Witness for C9 at a concrete one-row run whose only record is the
invalid-object record of [[rowX]]. -/
theorem claim9_witness :
    rowStepRecord stepX ∈ (importarCSV [stepX] .ended "T").results ∧
    (({ text := (rowStepRecord stepX).status,
        color := statusColor (rowStepRecord stepX).status } : PdfText) ∈
      renderResult (rowStepRecord stepX) ∧
    (statusColor (rowStepRecord stepX).status = PdfColor.green ↔
      (rowStepRecord stepX).status = "✅ Sucesso") ∧
    ((rowStepRecord stepX).status ≠ "✅ Sucesso" →
      statusColor (rowStepRecord stepX).status = PdfColor.red) ∧
    statusColor (rowStepRecord stepX).status ≠ PdfColor.orange ∧
    ("⚠️ Objeto Inválido / Linha Ignorada" : String) ≠ "⚠️ Objeto Inválido") :=
  ⟨by decide,
   claim9_status_color_dichotomy [stepX] .ended "T" (rowStepRecord stepX)
     (by decide)⟩

/-- C10: object-kind validation is whitespace- and case-insensitive — the raw
`objectType` is trimmed and lowercased before the guard and the endpoint
lookup, and for an accepted row both the appended record and the issued POST
use the normalized value, never the raw input; in particular `" Contact "`
and `"DEAL"` normalize to accepted kinds. -/
theorem claim10_objectType_normalized (step : RowStep)
    (acc : List ResultRecord)
    (h : (BASE_URLS (jsToLower (jsTrim step.row.objectType))).isSome = true) :
    normalizeObjectType step.row.objectType =
      jsToLower (jsTrim step.row.objectType) ∧
    (processRow step acc).1 = acc ++
      [createPropertyRecord (normalizeObjectType step.row.objectType)
        (buildPropriedade step.row) step.outcome step.timestamp] ∧
    (createPropertyRecord (normalizeObjectType step.row.objectType)
      (buildPropriedade step.row) step.outcome step.timestamp).objectType =
      normalizeObjectType step.row.objectType ∧
    (processRow step acc).2 =
      [{ url := BASE_URLS (normalizeObjectType step.row.objectType),
         body := buildPropriedade step.row }] ∧
    normalizeObjectType " Contact " = "contact" ∧
    normalizeObjectType "DEAL" = "deal" ∧
    (BASE_URLS "contact").isSome = true ∧
    (BASE_URLS "deal").isSome = true := by
  have hinv : rowIsInvalid (normalizeObjectType step.row.objectType) = false :=
    rowIsInvalid_false_of_isSome _ h
  refine ⟨rfl, ?_, rfl, ?_, by decide, by decide, by decide, by decide⟩
  · unfold processRow createProperty
    dsimp only
    rw [hinv]
    simp
  · unfold processRow createProperty
    dsimp only
    rw [hinv]
    simp

/-- Witness for C10 at the concrete event [[stepContactWs]]
(`objectType = " Contact "`). -/
theorem claim10_witness :
    (BASE_URLS (jsToLower (jsTrim stepContactWs.row.objectType))).isSome =
      true ∧
    (normalizeObjectType stepContactWs.row.objectType =
      jsToLower (jsTrim stepContactWs.row.objectType) ∧
    (processRow stepContactWs []).1 = [] ++
      [createPropertyRecord (normalizeObjectType stepContactWs.row.objectType)
        (buildPropriedade stepContactWs.row) stepContactWs.outcome
        stepContactWs.timestamp] ∧
    (createPropertyRecord (normalizeObjectType stepContactWs.row.objectType)
      (buildPropriedade stepContactWs.row) stepContactWs.outcome
      stepContactWs.timestamp).objectType =
      normalizeObjectType stepContactWs.row.objectType ∧
    (processRow stepContactWs []).2 =
      [{ url := BASE_URLS (normalizeObjectType stepContactWs.row.objectType),
         body := buildPropriedade stepContactWs.row }] ∧
    normalizeObjectType " Contact " = "contact" ∧
    normalizeObjectType "DEAL" = "deal" ∧
    (BASE_URLS "contact").isSome = true ∧
    (BASE_URLS "deal").isSome = true) :=
  ⟨by decide, claim10_objectType_normalized stepContactWs [] (by decide)⟩
